import Mathlib

/-!
# Verification of `qrenderdoc/Windows/Dialogs/CrashDialog.cpp`

A shallow embedding of the crash-report dialog controller: its persisted
configuration, UI widget state, the three-stage report state machine, the
multipart request builder, and the network callback handlers.  Each
definition is translated from the corresponding C++ function in
`CrashDialog.cpp`; Qt toolkit state (widget visibility, checkbox state,
label text) is carried explicitly in records, and the asynchronous
network callbacks become pure state-transformers taking their payloads
as arguments.  `double` arithmetic in the upload-progress handler is
modelled exactly over `ℚ`; the C integer casts (which truncate, and
coincide with `Int.floor`/`Int.toNat` on the non-negative values that
arise) are modelled by floor.
-/

namespace CrashDialog

/-- The three UI stages of the dialog (`enum class ReportStage`). -/
inductive ReportStage
  | FillingDetails
  | Uploading
  | Reported
deriving DecidableEq, Repr

/-- A persisted bug-report record (`struct BugReport` from the configuration,
with `QDateTime` timestamps modelled as `Nat`). -/
structure BugReport where
  ID : String
  SubmitDate : Nat
  CheckDate : Nat
deriving DecidableEq, Repr

/-- Modelled from the spec: the fixed, build-time-configured bug-report
endpoint URL (the `BUGREPORT_URL` macro, defined outside this file). -/
def bugreportUrlString : String := "https://renderdoc.org/bugreporter"

/-- Modelled from the spec: `BugReport::URL()` is defined outside this file;
the spec says the permanent report URL is "built by template-substituting
the ID into a fixed URL pattern". -/
def bugURL (id : String) : String := bugreportUrlString ++ "/report/" ++ id

/-- The status text of the uploading panel.  The source formats one
`QString` via `tr(...).arg(...)`; the embedding keeps the arguments of
each format structured so that the displayed numbers stay exact. -/
inductive ProgressText
  /-- `tr("Uploading report...\nCalculating time remaining")` -/
  | calculating
  /-- `tr("Uploading report...\n%1 MB / %2 MB. %3 remaining (%4 MB/s)")` -/
  | stats (sentMB totalMB : ℚ) (remain : String) (speedMBS : ℚ)
  /-- `tr("Network error uploading:\n%1")` -/
  | networkError (errorString : String)
deriving DecidableEq

/-- The persisted configuration fields touched by the dialog
(`PersistantConfig`, external collaborator). -/
structure PersistantConfig where
  CrashReport_LastOpenedCapture : String
  CrashReport_ShouldRememberEmail : Bool
  CrashReport_EmailAddress : String
  CrashReport_EmailNagged : Bool
  CrashReport_ReportedBugs : List BugReport
deriving DecidableEq

/-- The widget state of the dialog read or written by the handlers. -/
structure UIState where
  /-- `ui->email` text -/
  email : String
  /-- `ui->rememberEmail` checked -/
  rememberEmail : Bool
  /-- `ui->description` plain text -/
  description : String
  /-- `ui->captureUpload` checked -/
  captureUpload : Bool
  /-- `ui->checkUpdates` checked -/
  checkUpdates : Bool
  /-- `ui->captureFilename` text -/
  captureFilenameText : String
  /-- `ui->progressBar` maximum -/
  progressBarMaximum : Int
  /-- `ui->progressBar` value -/
  progressBarValue : Int
  /-- `ui->progressText` text -/
  progressText : ProgressText
  /-- `ui->uploadRetry` enabled -/
  uploadRetryEnabled : Bool
  /-- `ui->finishedText` text -/
  finishedText : String
  reportGroupVisible : Bool
  uploadingGroupVisible : Bool
  reportedGroupVisible : Bool
  captureLabelVisible : Bool
  captureUploadVisible : Bool
  captureFilenameVisible : Bool
  capturePreviewFrameVisible : Bool
  /-- whether `ui->email` holds keyboard focus -/
  emailFocused : Bool
deriving DecidableEq

/-- A part of the multipart form body (`QHttpPart`). -/
inductive PartBody
  /-- `setBody` of a UTF-8 encoded string -/
  | bytes (text : String)
  /-- `setBody` of a raw byte buffer -/
  | bin (data : List Nat)
  /-- `setBodyDevice` of a `QFile` opened on this path -/
  | fileDevice (path : String)
deriving DecidableEq

/-- An element of the multipart body with its headers (`QHttpPart`). -/
structure HttpPart where
  contentType : Option String
  contentDisposition : String
  body : PartBody
deriving DecidableEq

/-- The whole dialog state: widgets, stage, configuration, and the
member variables of `CrashDialog`. -/
structure DialogState where
  ui : UIState
  /-- `m_Stage` -/
  stage : ReportStage
  /-- `m_Config` (reference to the external configuration) -/
  config : PersistantConfig
  /-- `m_ReportPath` -/
  reportPath : String
  /-- `m_ReportMetadata` (a `QVariantMap`; modelled as its sorted key/value list) -/
  reportMetadata : List (String × String)
  /-- `m_CaptureFilename` -/
  captureFilename : String
  /-- `m_Thumbnail` (the compressed JPEG buffer, when present) -/
  thumbnail : Option (List Nat)
  /-- `m_ReportID` -/
  reportID : String
  /-- whether `m_Request` holds an in-flight network request -/
  requestInFlight : Bool
  /-- the multipart body handed to `m_NetManager->post` by the last `sendReport` -/
  requestParts : List HttpPart
  /-- whether the dialog has been closed via `accept()` or `reject()` -/
  closed : Bool
  /-- number of `m_Config.Save()` calls performed -/
  saveCount : Nat
deriving DecidableEq

/-! ## `CrashDialog::setStage` -/

/-- `CrashDialog::setStage`: records the stage and shows exactly the
panel group of that stage (the `switch` of show/hide calls). -/
def setStage (s : DialogState) (stage : ReportStage) : DialogState :=
  let ui :=
    match stage with
    | ReportStage.FillingDetails =>
        { s.ui with reportGroupVisible := true, uploadingGroupVisible := false,
                    reportedGroupVisible := false }
    | ReportStage.Uploading =>
        { s.ui with reportGroupVisible := false, uploadingGroupVisible := true,
                    reportedGroupVisible := false }
    | ReportStage.Reported =>
        { s.ui with reportGroupVisible := false, uploadingGroupVisible := false,
                    reportedGroupVisible := true }
  { s with stage := stage, ui := ui }

/-! ## Upload progress formatting -/

/-- `QString::arg(n, 2, 10, QLatin1Char('0'))`: decimal rendering of `n`
left-padded with `'0'` to a minimum field width of 2. -/
def pad2 (n : Nat) : String :=
  if n < 10 then "0" ++ Nat.repr n else Nat.repr n

/-- The remaining-time string of the upload-progress lambda in
`CrashDialog::sendReport`: hours/minutes/seconds are split off
`secondsRemaining` and formatted through two-digit `arg` fields, except
for the plain `tr("%1 seconds")` case. -/
def formatRemaining (secondsRemaining : Nat) : String :=
  if secondsRemaining / 3600 > 0 then
    pad2 (secondsRemaining / 3600) ++ ":" ++ pad2 ((secondsRemaining / 60) % 60) ++ ":" ++
      pad2 (secondsRemaining % 60)
  else if (secondsRemaining / 60) % 60 > 0 then
    pad2 ((secondsRemaining / 60) % 60) ++ ":" ++ pad2 (secondsRemaining % 60)
  else
    Nat.repr (secondsRemaining % 60) ++ " seconds"

/-- The `uploadProgress` lambda of `CrashDialog::sendReport`.  `sent` and
`total` are the `qint64` payloads; `secondsElapsed` is
`double(m_UploadTimer->nsecsElapsed()) * 1.0e-9`, taken as an exact
rational.  The `int(...)` and `qulonglong(...)` casts of the
non-negative doubles are floors. -/
def uploadProgress (ui : UIState) (sent total : Int) (secondsElapsed : ℚ) : UIState :=
  if total > 0 ∧ total > sent then
    let ui1 := { ui with progressBarValue := ⌊(10000 : ℚ) * ((sent : ℚ) / (total : ℚ))⌋ }
    let sentMB : ℚ := (sent : ℚ) / 1000000
    let totalMB : ℚ := (total : ℚ) / 1000000
    let speedMBS : ℚ := sentMB / secondsElapsed
    let secondsRemaining : Nat := (⌊(totalMB - sentMB) / speedMBS⌋).toNat
    if secondsElapsed > 1 then
      { ui1 with progressText :=
          ProgressText.stats sentMB totalMB (formatRemaining secondsRemaining) speedMBS }
    else
      ui1
  else
    ui

/-! ## `CrashDialog::sendReport` — multipart body construction -/

/-- A metadata form part: `form-data; name="<key>"` with the UTF-8 string
value as body. -/
def metadataPart (key value : String) : HttpPart :=
  { contentType := none,
    contentDisposition := "form-data; name=\"" ++ key ++ "\"",
    body := PartBody.bytes value }

/-- The `email` form part. -/
def emailPart (email : String) : HttpPart :=
  { contentType := none,
    contentDisposition := "form-data; name=\"email\"",
    body := PartBody.bytes email }

/-- The `description` form part. -/
def descriptionPart (description : String) : HttpPart :=
  { contentType := none,
    contentDisposition := "form-data; name=\"description\"",
    body := PartBody.bytes description }

/-- The capture-file part: body streamed from the capture file. -/
def capturePart (captureFilename : String) : HttpPart :=
  { contentType := some "application/x-renderdoc-capture",
    contentDisposition := "form-data; name=\"capture\"; filename=\"capture.rdc\"",
    body := PartBody.fileDevice captureFilename }

/-- The JPEG thumbnail part: body copied from `m_Thumbnail->data`. -/
def thumbPart (data : List Nat) : HttpPart :=
  { contentType := some "image/jpeg",
    contentDisposition := "form-data; name=\"thumb\"; filename=\"thumb.jpg\"",
    body := PartBody.bin data }

/-- The report-archive part: body streamed from the report zip. -/
def reportPart (reportPath : String) : HttpPart :=
  { contentType := some "application/zip",
    contentDisposition := "form-data; name=\"report\"; filename=\"report.zip\"",
    body := PartBody.fileDevice reportPath }

/-- The multipart body built by `CrashDialog::sendReport`, appending parts
in source order: the metadata fields, then `email` (if non-empty), then
`description` (if non-empty), then — when a capture filename is set and
the capture-upload checkbox is checked — the capture file and (if a
thumbnail exists) the JPEG thumbnail, and finally the report zip. -/
def buildMultipart (metadata : List (String × String)) (email description : String)
    (captureFilename : String) (captureUploadChecked : Bool)
    (thumbnail : Option (List Nat)) (reportPath : String) : List HttpPart :=
  let parts := metadata.map fun kv => metadataPart kv.1 kv.2
  let parts := if email = "" then parts else parts ++ [emailPart email]
  let parts := if description = "" then parts else parts ++ [descriptionPart description]
  let parts :=
    if captureFilename ≠ "" ∧ captureUploadChecked = true then
      let parts := parts ++ [capturePart captureFilename]
      match thumbnail with
      | some data => parts ++ [thumbPart data]
      | none => parts
    else parts
  parts ++ [reportPart reportPath]

/-- `CrashDialog::sendReport` as a state transformer: replaces the
request (`delete m_Request` / `m_NetManager->post`), records the
multipart body just built, resets the progress bar to 0 on a 0–10000
scale, shows the "calculating" text, and restarts the upload timer
(the timer itself is abstracted into the `secondsElapsed` payload of
progress events). -/
def sendReport (s : DialogState) : DialogState :=
  { s with
    requestParts := buildMultipart s.reportMetadata s.ui.email s.ui.description
        s.captureFilename s.ui.captureUpload s.thumbnail s.reportPath,
    requestInFlight := true,
    ui := { s.ui with progressBarMaximum := 10000, progressBarValue := 0,
                      progressText := ProgressText.calculating } }

/-! ## Network callbacks of `CrashDialog::sendReport` -/

/-- The error lambda connected to `QNetworkReply::error`: zero the
progress bar, show the network error text (`m_Request->errorString()`,
taken as the payload), and enable the retry button.  `setStage` is not
called. -/
def onNetworkError (s : DialogState) (errorString : String) : DialogState :=
  { s with ui := { s.ui with
      progressBarValue := 0,
      progressText := ProgressText.networkError errorString,
      uploadRetryEnabled := true } }

/-- `tr("<p>Your report has been uploaded, thank you for your help!</p>")` -/
def thankYouText : String := "<p>Your report has been uploaded, thank you for your help!</p>"

/-- `tr("<p>The unique anonymous URL for your report is <a href=\"%1\">%1</a>.</p>").arg(url)` -/
def urlParagraph (url : String) : String :=
  "<p>The unique anonymous URL for your report is <a href=\"" ++ url ++ "\">" ++ url ++
    "</a>.</p>"

/-- The finished lambda connected to `QNetworkReply::finished`: bail out
if the retry button is enabled (an error already came in); otherwise
read the response body into `m_ReportID`, build the finished text
(appending the report URL when the ID is non-empty), and move to the
`Reported` stage. -/
def onFinished (s : DialogState) (responseBody : String) : DialogState :=
  if s.ui.uploadRetryEnabled = true then s
  else
    let reportID := responseBody
    let text := thankYouText
    let text := if reportID = "" then text else text ++ urlParagraph (bugURL reportID)
    setStage
      { s with reportID := reportID, requestInFlight := false,
               ui := { s.ui with finishedText := text } }
      ReportStage.Reported

/-! ## Button handlers -/

/-- The email-nag side effect of `on_send_clicked`: mark the nag flag
persistently (`m_Config.CrashReport_EmailNagged = true; m_Config.Save()`)
so the prompt never repeats. -/
def markNagged (s : DialogState) : DialogState :=
  { s with config := { s.config with CrashReport_EmailNagged := true },
           saveCount := s.saveCount + 1 }

/-- The tail of `on_send_clicked` once both confirmation gates pass:
persist the email configuration (the address only when remembering is
checked and the field is non-empty), save, send the report and move to
the `Uploading` stage. -/
def proceedSend (s : DialogState) : DialogState :=
  setStage
    (sendReport
      { s with
        config := { s.config with
          CrashReport_ShouldRememberEmail := s.ui.rememberEmail,
          CrashReport_EmailAddress :=
            if s.ui.rememberEmail = true ∧ s.ui.email ≠ "" then s.ui.email
            else s.config.CrashReport_EmailAddress },
        saveCount := s.saveCount + 1 })
    ReportStage.Uploading

/-- `CrashDialog::on_send_clicked`.  `captureConfirmYes` is whether the
capture-upload confirmation (asked only when the capture-upload checkbox
is checked) is answered `Yes`; `emailNagYes` is whether the one-time
email nag (asked only when never nagged and the email field is empty) is
answered `Yes`. -/
def on_send_clicked (s : DialogState) (captureConfirmYes emailNagYes : Bool) : DialogState :=
  if s.ui.captureUpload = true ∧ captureConfirmYes = false then
    -- uncheck and return back so they can confirm
    { s with ui := { s.ui with captureUpload := false } }
  else if s.config.CrashReport_EmailNagged = false ∧ s.ui.email = "" then
    if emailNagYes = true then
      -- focus the email field and return so the user can enter something
      { (markNagged s) with ui := { (markNagged s).ui with emailFocused := true } }
    else
      proceedSend (markNagged s)
  else
    proceedSend s

/-- `CrashDialog::on_cancel_clicked`: just `reject()`. -/
def on_cancel_clicked (s : DialogState) : DialogState :=
  { s with closed := true }

/-- `CrashDialog::on_uploadCancel_clicked`: ask for confirmation; on
`Yes`, abort the in-flight request and `reject()`. -/
def on_uploadCancel_clicked (s : DialogState) (confirmYes : Bool) : DialogState :=
  if confirmYes = true then
    { s with requestInFlight := false, closed := true }
  else s

/-- `CrashDialog::on_uploadRetry_clicked`: re-issue the request and
disable the retry button. -/
def on_uploadRetry_clicked (s : DialogState) : DialogState :=
  let s1 := sendReport s
  { s1 with ui := { s1.ui with uploadRetryEnabled := false } }

/-- The list update of `on_buttonBox_accepted`: `push_back(bug)` followed
by `if(count() > 20) erase(0)`. -/
def appendBug (l : List BugReport) (bug : BugReport) : List BugReport :=
  if (l ++ [bug]).length > 20 then (l ++ [bug]).eraseIdx 0 else l ++ [bug]

/-- `CrashDialog::on_buttonBox_accepted`: when a report ID exists and the
check-for-updates checkbox is checked, append the new `BugReport` to the
persisted list, erase index 0 if the list now exceeds 20 entries, and
save; then `accept()`.  `now` is `QDateTime::currentDateTimeUtc()`. -/
def on_buttonBox_accepted (s : DialogState) (now : Nat) : DialogState :=
  if s.reportID ≠ "" ∧ s.ui.checkUpdates = true then
    let bugs := appendBug s.config.CrashReport_ReportedBugs
      { ID := s.reportID, SubmitDate := now, CheckDate := now }
    { s with config := { s.config with CrashReport_ReportedBugs := bugs },
             saveCount := s.saveCount + 1,
             closed := true }
  else
    { s with closed := true }

/-! ## `CrashDialog::CrashDialog` (constructor) -/

/-- The constructor.  `crashReportJSON` is the report descriptor map (a
`QVariantMap`, modelled as its key/value list); `replaycrashVal` is
`crashReportJSON["replaycrash"].toUInt()`; `capExists` is whether the
previously-recorded capture path exists on disk (`QFileInfo::exists`);
`openSucceeded` is whether `ICaptureFile::OpenFile` returned
`ReplayStatus::Succeeded`; `imageNull` is whether the decoded raw
thumbnail `QImage` is null; `jpgThumb` is the compressed JPEG thumbnail
buffer returned by `GetThumbnail(FileType::JPG, 0)`.  Widget states not
set by the constructor keep the defaults of the dialog's UI definition
(empty texts, unchecked checkboxes, retry disabled). -/
def crashDialogInit (cfg : PersistantConfig) (crashReportJSON : List (String × String))
    (replaycrashVal : Nat) (capExists openSucceeded imageNull : Bool)
    (jpgThumb : List Nat) : DialogState :=
  let reportPath := (crashReportJSON.lookup "report").getD ""
  -- remove metadata we don't send directly
  let metadata := crashReportJSON.filter fun kv =>
    decide (kv.1 ≠ "report" ∧ kv.1 ≠ "replaycrash")
  let replayCrash := replaycrashVal ≠ 0
  let ui : UIState := {
    email := cfg.CrashReport_EmailAddress,
    rememberEmail := cfg.CrashReport_ShouldRememberEmail,
    description := "",
    captureUpload := false,
    checkUpdates := false,
    captureFilenameText := "",
    progressBarMaximum := 100,
    progressBarValue := 0,
    progressText := ProgressText.calculating,
    uploadRetryEnabled := false,
    finishedText := "",
    reportGroupVisible := true,
    uploadingGroupVisible := true,
    reportedGroupVisible := true,
    captureLabelVisible := true,
    captureUploadVisible := true,
    captureFilenameVisible := true,
    capturePreviewFrameVisible := true,
    emailFocused := false }
  let s : DialogState := {
    ui := ui,
    stage := ReportStage.FillingDetails,
    config := cfg,
    reportPath := reportPath,
    reportMetadata := metadata,
    captureFilename := cfg.CrashReport_LastOpenedCapture,
    thumbnail := none,
    reportID := "",
    requestInFlight := false,
    requestParts := [],
    closed := false,
    saveCount := 0 }
  let s := setStage s ReportStage.FillingDetails
  if replayCrash ∧ capExists = true then
    -- if we have a previous capture, fill out the capture group;
    -- hide the preview until we have a successful thumbnail
    let s := { s with ui := { s.ui with
        captureFilenameText := s.captureFilename,
        capturePreviewFrameVisible := false } }
    if openSucceeded = true ∧ imageNull = false then
      { s with ui := { s.ui with capturePreviewFrameVisible := true },
               thumbnail := some jpgThumb }
    else s
  else
    -- otherwise hide it entirely
    { s with captureFilename := "",
             ui := { s.ui with
               captureLabelVisible := false,
               captureUploadVisible := false,
               captureFilenameVisible := false,
               capturePreviewFrameVisible := false } }

/-! ## Event-driven execution -/

/-- A user or network event delivered to the dialog.  Dialog-box answers
and network payloads travel with the event. -/
inductive Event
  | sendClicked (captureConfirmYes emailNagYes : Bool)
  | cancelClicked
  | uploadCancelClicked (confirmYes : Bool)
  | uploadRetryClicked
  | netError (errorString : String)
  | netProgress (sent total : Int) (secondsElapsed : ℚ)
  | netFinished (responseBody : String)
  | buttonBoxAccepted (now : Nat)
deriving DecidableEq

/-- Dispatch of one event on an open dialog: buttons fire only while
their panel group is visible (Qt hides the other groups), the retry
button only while enabled, and network callbacks only while a request is
in flight. -/
def stepOpen (s : DialogState) : Event → DialogState
  | Event.sendClicked capYes nagYes =>
      if s.ui.reportGroupVisible = true then on_send_clicked s capYes nagYes else s
  | Event.cancelClicked =>
      if s.ui.reportGroupVisible = true then on_cancel_clicked s else s
  | Event.uploadCancelClicked confirmYes =>
      if s.ui.uploadingGroupVisible = true then on_uploadCancel_clicked s confirmYes else s
  | Event.uploadRetryClicked =>
      if s.ui.uploadingGroupVisible = true ∧ s.ui.uploadRetryEnabled = true then
        on_uploadRetry_clicked s
      else s
  | Event.netError errorString =>
      if s.requestInFlight = true then onNetworkError s errorString else s
  | Event.netProgress sent total secondsElapsed =>
      if s.requestInFlight = true then
        { s with ui := uploadProgress s.ui sent total secondsElapsed }
      else s
  | Event.netFinished responseBody =>
      if s.requestInFlight = true then onFinished s responseBody else s
  | Event.buttonBoxAccepted now =>
      if s.ui.reportedGroupVisible = true then on_buttonBox_accepted s now else s

/-- One step of the dialog: a closed dialog processes nothing. -/
def step (s : DialogState) (ev : Event) : DialogState :=
  if s.closed = true then s else stepOpen s ev

/-- Run a sequence of events from a state. -/
def run (s : DialogState) (evs : List Event) : DialogState :=
  evs.foldl step s

/-! ## Sample states used to instantiate theorems with hypotheses -/

/-- A concrete configuration value. -/
def sampleConfig : PersistantConfig :=
  { CrashReport_LastOpenedCapture := "",
    CrashReport_ShouldRememberEmail := false,
    CrashReport_EmailAddress := "",
    CrashReport_EmailNagged := true,
    CrashReport_ReportedBugs := [] }

/-- A concrete widget state value. -/
def sampleUI : UIState :=
  { email := "",
    rememberEmail := false,
    description := "",
    captureUpload := false,
    checkUpdates := false,
    captureFilenameText := "",
    progressBarMaximum := 100,
    progressBarValue := 0,
    progressText := ProgressText.calculating,
    uploadRetryEnabled := false,
    finishedText := "",
    reportGroupVisible := true,
    uploadingGroupVisible := false,
    reportedGroupVisible := false,
    captureLabelVisible := true,
    captureUploadVisible := true,
    captureFilenameVisible := true,
    capturePreviewFrameVisible := true,
    emailFocused := false }

/-- A concrete dialog state value. -/
def sampleState : DialogState :=
  { ui := sampleUI,
    stage := ReportStage.FillingDetails,
    config := sampleConfig,
    reportPath := "/tmp/report.zip",
    reportMetadata := [],
    captureFilename := "",
    thumbnail := none,
    reportID := "",
    requestInFlight := false,
    requestParts := [],
    closed := false,
    saveCount := 0 }

/-! ## C1 — remaining-time formatting -/

/-- **C1** (counterexample): the claim displays a remaining time of 125
seconds as `"2:05"`, but the code pads the minutes field to two digits
with `'0'` (`arg(minutesRemaining, 2, 10, QLatin1Char('0'))`) and
produces `"02:05"`. -/
theorem c1_counterexample : formatRemaining 125 ≠ "2:05" := by decide

/-- **C1** (amended): the remaining-time string uses two-digit
zero-padded fields: `HH:MM:SS` when at least one hour remains, `MM:SS`
when at least one minute, else `"N seconds"`; 125 seconds is displayed
as `"02:05"` and 3700 seconds as `"01:01:40"`. -/
theorem c1_remaining_time_format (h m sec : Nat) (hm : m < 60) (hs : sec < 60) :
    formatRemaining (3600 * h + 60 * m + sec) =
      (if 0 < h then pad2 h ++ ":" ++ pad2 m ++ ":" ++ pad2 sec
       else if 0 < m then pad2 m ++ ":" ++ pad2 sec
       else Nat.repr sec ++ " seconds") ∧
    formatRemaining 125 = "02:05" ∧ formatRemaining 3700 = "01:01:40" := by
  refine ⟨?_, by decide, by decide⟩
  have h1 : (3600 * h + 60 * m + sec) / 3600 = h := by omega
  have h2 : ((3600 * h + 60 * m + sec) / 60) % 60 = m := by omega
  have h3 : (3600 * h + 60 * m + sec) % 60 = sec := by omega
  unfold formatRemaining
  rw [h1, h2, h3]

/-- **C1** witness: the amended formatting theorem applied at one hour,
one minute and 40 seconds (3700 seconds total). -/
theorem c1_remaining_time_format_witness :
    (1 : Nat) < 60 ∧ (40 : Nat) < 60 ∧
      (formatRemaining (3600 * 1 + 60 * 1 + 40) =
        (if 0 < (1 : Nat) then pad2 1 ++ ":" ++ pad2 1 ++ ":" ++ pad2 40
         else if 0 < (1 : Nat) then pad2 1 ++ ":" ++ pad2 40
         else Nat.repr 40 ++ " seconds") ∧
       formatRemaining 125 = "02:05" ∧ formatRemaining 3700 = "01:01:40") :=
  ⟨by decide, by decide, c1_remaining_time_format 1 1 40 (by decide) (by decide)⟩

/-! ## C2 — bounded bug-report list -/

/-- A dialog state whose persisted bug list already holds 21 entries. -/
def c2OverfullState : DialogState :=
  { sampleState with
    reportID := "new",
    ui := { sampleUI with checkUpdates := true },
    config := { sampleConfig with
      CrashReport_ReportedBugs :=
        List.replicate 21 ({ ID := "x", SubmitDate := 0, CheckDate := 0 } : BugReport) } }

/-- **C2** (counterexample): the claim promises at most 20 entries after
acceptance for *every* prior state, but `on_buttonBox_accepted` evicts
only one entry; from a prior list of 21 entries it leaves 21. -/
theorem c2_counterexample :
    ¬ ((on_buttonBox_accepted c2OverfullState 5).config.CrashReport_ReportedBugs.length ≤ 20) := by
  decide

/-- **C2** (amended): from any prior list of at most 20 entries, after
acceptance with a non-empty report ID and check-for-updates checked, the
new record is appended last and the list still holds at most 20 entries;
below 20 the list is a plain append, and at exactly 20 the oldest entry
(index 0) is evicted, leaving 20 entries with the new one last. -/
theorem appendBug_of_lt (l : List BugReport) (bug : BugReport) (h : l.length < 20) :
    appendBug l bug = l ++ [bug] := by
  unfold appendBug
  rw [if_neg]
  simp only [List.length_append, List.length_singleton]
  omega

theorem appendBug_of_eq (l : List BugReport) (bug : BugReport) (h : l.length = 20) :
    appendBug l bug = (l ++ [bug]).eraseIdx 0 := by
  unfold appendBug
  rw [if_pos]
  simp only [List.length_append, List.length_singleton]
  omega

theorem eraseIdx_zero_concat (l : List BugReport) (bug : BugReport) (h : l ≠ []) :
    (l ++ [bug]).eraseIdx 0 = l.tail ++ [bug] := by
  cases l with
  | nil => exact absurd rfl h
  | cons a l' => simp

theorem appendBug_getLast? (l : List BugReport) (bug : BugReport) :
    (appendBug l bug).getLast? = some bug := by
  unfold appendBug
  split
  · rename_i h
    cases l with
    | nil => simp at h
    | cons a l' =>
      simp only [List.cons_append, List.eraseIdx_cons_zero]
      exact List.getLast?_concat _
  · exact List.getLast?_concat _

theorem appendBug_length_of_eq (l : List BugReport) (bug : BugReport) (h : l.length = 20) :
    (appendBug l bug).length = 20 := by
  have hne : l ≠ [] := by
    intro hnil
    rw [hnil] at h
    simp at h
  rw [appendBug_of_eq l bug h, eraseIdx_zero_concat l bug hne]
  simp only [List.length_append, List.length_singleton, List.length_tail]
  omega

theorem appendBug_length (l : List BugReport) (bug : BugReport) (h : l.length ≤ 20) :
    (appendBug l bug).length ≤ 20 := by
  rcases Nat.lt_or_ge l.length 20 with hlt | hge
  · rw [appendBug_of_lt l bug hlt]
    simp only [List.length_append, List.length_singleton]
    omega
  · exact le_of_eq (appendBug_length_of_eq l bug (Nat.le_antisymm h hge))

theorem on_buttonBox_accepted_bugs (s : DialogState) (now : Nat)
    (hid : s.reportID ≠ "") (hchk : s.ui.checkUpdates = true) :
    (on_buttonBox_accepted s now).config.CrashReport_ReportedBugs =
      appendBug s.config.CrashReport_ReportedBugs
        { ID := s.reportID, SubmitDate := now, CheckDate := now } := by
  unfold on_buttonBox_accepted
  rw [if_pos ⟨hid, hchk⟩]

/-- The new record appended by acceptance at time `now`. -/
def newBug (s : DialogState) (now : Nat) : BugReport :=
  { ID := s.reportID, SubmitDate := now, CheckDate := now }

theorem c2_bug_list_append (s : DialogState) (now : Nat)
    (hlen : s.config.CrashReport_ReportedBugs.length ≤ 20)
    (hid : s.reportID ≠ "") (hchk : s.ui.checkUpdates = true) :
    (on_buttonBox_accepted s now).config.CrashReport_ReportedBugs.length ≤ 20 ∧
    (on_buttonBox_accepted s now).config.CrashReport_ReportedBugs.getLast? =
      some (newBug s now) ∧
    (s.config.CrashReport_ReportedBugs.length < 20 →
      (on_buttonBox_accepted s now).config.CrashReport_ReportedBugs =
        s.config.CrashReport_ReportedBugs ++ [newBug s now]) ∧
    (s.config.CrashReport_ReportedBugs.length = 20 →
      (on_buttonBox_accepted s now).config.CrashReport_ReportedBugs =
        (s.config.CrashReport_ReportedBugs ++ [newBug s now]).eraseIdx 0 ∧
      (on_buttonBox_accepted s now).config.CrashReport_ReportedBugs.length = 20) := by
  rw [on_buttonBox_accepted_bugs s now hid hchk]
  refine ⟨appendBug_length _ _ hlen, appendBug_getLast? _ _, ?_, ?_⟩
  · intro hlt
    exact appendBug_of_lt _ _ hlt
  · intro heq
    exact ⟨appendBug_of_eq _ _ heq, appendBug_length_of_eq _ _ heq⟩

/-- A dialog state whose persisted bug list holds exactly 20 entries. -/
def c2FullState : DialogState :=
  { sampleState with
    reportID := "new",
    ui := { sampleUI with checkUpdates := true },
    config := { sampleConfig with
      CrashReport_ReportedBugs :=
        List.replicate 20 ({ ID := "x", SubmitDate := 0, CheckDate := 0 } : BugReport) } }

/-- **C2** witness: appending a 21st record to a full list of 20 leaves
20 entries with the new record last. -/
theorem c2_bug_list_append_witness :
    (c2FullState.config.CrashReport_ReportedBugs.length ≤ 20) ∧
    (c2FullState.reportID ≠ "") ∧
    (c2FullState.ui.checkUpdates = true) ∧
    ((on_buttonBox_accepted c2FullState 7).config.CrashReport_ReportedBugs.length ≤ 20 ∧
     (on_buttonBox_accepted c2FullState 7).config.CrashReport_ReportedBugs.getLast? =
       some (newBug c2FullState 7) ∧
     (c2FullState.config.CrashReport_ReportedBugs.length < 20 →
       (on_buttonBox_accepted c2FullState 7).config.CrashReport_ReportedBugs =
         c2FullState.config.CrashReport_ReportedBugs ++ [newBug c2FullState 7]) ∧
     (c2FullState.config.CrashReport_ReportedBugs.length = 20 →
       (on_buttonBox_accepted c2FullState 7).config.CrashReport_ReportedBugs =
         (c2FullState.config.CrashReport_ReportedBugs ++
           [newBug c2FullState 7]).eraseIdx 0 ∧
       (on_buttonBox_accepted c2FullState 7).config.CrashReport_ReportedBugs.length = 20)) :=
  ⟨by decide, by decide, rfl, c2_bug_list_append c2FullState 7 (by decide) (by decide) rfl⟩

/-! ## C3 — upload-progress accounting -/

/-- **C3** (confirmed): for a progress event with `total > sent > 0` and
elapsed seconds `e > 0`, the progress bar value is the integer part of
`10000 * (sent / total)`, the displayed speed is `(sent / 1e6) / e`
MB/s, and the speed/remaining text is only written when `e > 1`; before
the warm-up only the percentage bar changes. -/
theorem c3_upload_progress (ui : UIState) (sent total : Int) (e : ℚ)
    (hs : 0 < sent) (hst : sent < total) (_he : 0 < e) :
    (uploadProgress ui sent total e).progressBarValue =
      ⌊(10000 : ℚ) * ((sent : ℚ) / (total : ℚ))⌋ ∧
    (1 < e →
      (uploadProgress ui sent total e).progressText =
        ProgressText.stats ((sent : ℚ) / 1000000) ((total : ℚ) / 1000000)
          (formatRemaining
            (⌊(((total : ℚ) / 1000000) - ((sent : ℚ) / 1000000)) /
                (((sent : ℚ) / 1000000) / e)⌋.toNat))
          (((sent : ℚ) / 1000000) / e)) ∧
    (¬ 1 < e → (uploadProgress ui sent total e).progressText = ui.progressText) := by
  have hcond : total > 0 ∧ total > sent := ⟨hs.trans hst, hst⟩
  unfold uploadProgress
  rw [if_pos hcond]
  by_cases h1 : e > 1
  · rw [if_pos h1]
    exact ⟨rfl, fun _ => rfl, fun hc => absurd h1 hc⟩
  · rw [if_neg h1]
    exact ⟨rfl, fun hc => absurd hc h1, fun _ => rfl⟩

/-- **C3** witness: a progress event at 3 of 10 bytes after 2 seconds. -/
theorem c3_upload_progress_witness :
    (0 : Int) < 3 ∧ (3 : Int) < 10 ∧ (0 : ℚ) < 2 ∧
      ((uploadProgress sampleUI 3 10 2).progressBarValue =
        ⌊(10000 : ℚ) * ((3 : ℚ) / (10 : ℚ))⌋ ∧
      (1 < (2 : ℚ) →
        (uploadProgress sampleUI 3 10 2).progressText =
          ProgressText.stats ((3 : ℚ) / 1000000) ((10 : ℚ) / 1000000)
            (formatRemaining
              (⌊(((10 : ℚ) / 1000000) - ((3 : ℚ) / 1000000)) /
                  (((3 : ℚ) / 1000000) / 2)⌋.toNat))
            (((3 : ℚ) / 1000000) / 2)) ∧
      (¬ 1 < (2 : ℚ) → (uploadProgress sampleUI 3 10 2).progressText = sampleUI.progressText)) :=
  ⟨by decide, by decide, by norm_num,
    c3_upload_progress sampleUI 3 10 2 (by decide) (by decide) (by norm_num)⟩

/-! ## C4 — the stage machine -/

/-- The stage transitions the spec allows: staying put (which covers the
re-entrant retry of `Uploading`), `FillingDetails → Uploading`, and
`Uploading → Reported`. -/
def allowedTransition (a b : ReportStage) : Prop :=
  a = b ∨ (a = ReportStage.FillingDetails ∧ b = ReportStage.Uploading) ∨
    (a = ReportStage.Uploading ∧ b = ReportStage.Reported)

/-- The state invariant maintained by the dialog: each panel group is
visible exactly in its stage (established by `setStage`), and a network
request is in flight only while uploading. -/
def Consistent (s : DialogState) : Prop :=
  (s.ui.reportGroupVisible = true ↔ s.stage = ReportStage.FillingDetails) ∧
  (s.ui.uploadingGroupVisible = true ↔ s.stage = ReportStage.Uploading) ∧
  (s.ui.reportedGroupVisible = true ↔ s.stage = ReportStage.Reported) ∧
  (s.requestInFlight = true → s.stage = ReportStage.Uploading)

theorem consistent_setStage (s : DialogState) (st : ReportStage)
    (h : s.requestInFlight = true → st = ReportStage.Uploading) :
    Consistent (setStage s st) := by
  cases st with
  | FillingDetails =>
    refine ⟨by simp [setStage], by simp [setStage], by simp [setStage], fun hf => ?_⟩
    exact ReportStage.noConfusion (h hf)
  | Uploading =>
    exact ⟨by simp [setStage], by simp [setStage], by simp [setStage], fun _ => rfl⟩
  | Reported =>
    refine ⟨by simp [setStage], by simp [setStage], by simp [setStage], fun hf => ?_⟩
    exact ReportStage.noConfusion (h hf)

theorem consistent_of_eq_parts (s t : DialogState)
    (h1 : t.ui.reportGroupVisible = s.ui.reportGroupVisible)
    (h2 : t.ui.uploadingGroupVisible = s.ui.uploadingGroupVisible)
    (h3 : t.ui.reportedGroupVisible = s.ui.reportedGroupVisible)
    (h4 : t.stage = s.stage)
    (h5 : t.requestInFlight = true → s.requestInFlight = true)
    (hc : Consistent s) : Consistent t := by
  obtain ⟨c1, c2, c3, c4⟩ := hc
  refine ⟨?_, ?_, ?_, fun hf => ?_⟩
  · rw [h1, h4]; exact c1
  · rw [h2, h4]; exact c2
  · rw [h3, h4]; exact c3
  · rw [h4]; exact c4 (h5 hf)

theorem uploadProgress_visibility (ui : UIState) (sent total : Int) (e : ℚ) :
    (uploadProgress ui sent total e).reportGroupVisible = ui.reportGroupVisible ∧
    (uploadProgress ui sent total e).uploadingGroupVisible = ui.uploadingGroupVisible ∧
    (uploadProgress ui sent total e).reportedGroupVisible = ui.reportedGroupVisible := by
  unfold uploadProgress
  split
  · split
    · exact ⟨rfl, rfl, rfl⟩
    · exact ⟨rfl, rfl, rfl⟩
  · exact ⟨rfl, rfl, rfl⟩

theorem consistent_proceedSend (s : DialogState) : Consistent (proceedSend s) :=
  consistent_setStage _ _ (fun _ => rfl)

theorem consistent_on_send_clicked (s : DialogState) (a b : Bool) (hc : Consistent s) :
    Consistent (on_send_clicked s a b) := by
  unfold on_send_clicked
  split
  · exact consistent_of_eq_parts s _ rfl rfl rfl rfl (fun h => h) hc
  · split
    · split
      · exact consistent_of_eq_parts s _ rfl rfl rfl rfl (fun h => h) hc
      · exact consistent_proceedSend _
    · exact consistent_proceedSend _

theorem consistent_onFinished (s : DialogState) (body : String) (hc : Consistent s) :
    Consistent (onFinished s body) := by
  unfold onFinished
  split
  · exact hc
  · exact consistent_setStage _ _ (fun hf => absurd hf (by simp))

theorem consistent_stepOpen (s : DialogState) (ev : Event) (hc : Consistent s) :
    Consistent (stepOpen s ev) := by
  cases ev with
  | sendClicked a b =>
    simp only [stepOpen]
    split
    · exact consistent_on_send_clicked s a b hc
    · exact hc
  | cancelClicked =>
    simp only [stepOpen, on_cancel_clicked]
    split
    · exact consistent_of_eq_parts s _ rfl rfl rfl rfl (fun h => h) hc
    · exact hc
  | uploadCancelClicked confirmYes =>
    simp only [stepOpen, on_uploadCancel_clicked]
    split
    · split
      · exact consistent_of_eq_parts s _ rfl rfl rfl rfl
          (fun h => absurd h (by simp)) hc
      · exact hc
    · exact hc
  | uploadRetryClicked =>
    simp only [stepOpen]
    split
    · rename_i hguard
      have hst : s.stage = ReportStage.Uploading := hc.2.1.mp hguard.1
      refine ⟨?_, ?_, ?_, fun _ => hst⟩
      · show s.ui.reportGroupVisible = true ↔ s.stage = ReportStage.FillingDetails
        exact hc.1
      · show s.ui.uploadingGroupVisible = true ↔ s.stage = ReportStage.Uploading
        exact hc.2.1
      · show s.ui.reportedGroupVisible = true ↔ s.stage = ReportStage.Reported
        exact hc.2.2.1
    · exact hc
  | netError msg =>
    simp only [stepOpen, onNetworkError]
    split
    · exact consistent_of_eq_parts s _ rfl rfl rfl rfl (fun h => h) hc
    · exact hc
  | netProgress sent total e =>
    simp only [stepOpen]
    split
    · obtain ⟨v1, v2, v3⟩ := uploadProgress_visibility s.ui sent total e
      exact consistent_of_eq_parts s _ v1 v2 v3 rfl (fun h => h) hc
    · exact hc
  | netFinished body =>
    simp only [stepOpen]
    split
    · exact consistent_onFinished s body hc
    · exact hc
  | buttonBoxAccepted now =>
    simp only [stepOpen, on_buttonBox_accepted]
    split
    · split
      · exact consistent_of_eq_parts s _ rfl rfl rfl rfl (fun h => h) hc
      · exact consistent_of_eq_parts s _ rfl rfl rfl rfl (fun h => h) hc
    · exact hc

theorem consistent_step (s : DialogState) (ev : Event) (hc : Consistent s) :
    Consistent (step s ev) := by
  unfold step
  split
  · exact hc
  · exact consistent_stepOpen s ev hc

theorem consistent_crashDialogInit (cfg : PersistantConfig)
    (crashReportJSON : List (String × String)) (replaycrashVal : Nat)
    (capExists openSucceeded imageNull : Bool) (jpgThumb : List Nat) :
    Consistent (crashDialogInit cfg crashReportJSON replaycrashVal capExists
      openSucceeded imageNull jpgThumb) := by
  unfold crashDialogInit
  dsimp only
  split
  · split
    · exact ⟨by simp [setStage], by simp [setStage], by simp [setStage],
        fun hf => absurd hf (by simp [setStage])⟩
    · exact ⟨by simp [setStage], by simp [setStage], by simp [setStage],
        fun hf => absurd hf (by simp [setStage])⟩
  · exact ⟨by simp [setStage], by simp [setStage], by simp [setStage],
      fun hf => absurd hf (by simp [setStage])⟩

theorem consistent_run (s : DialogState) (evs : List Event) (hc : Consistent s) :
    Consistent (run s evs) := by
  induction evs generalizing s with
  | nil => exact hc
  | cons e rest ih => exact ih (step s e) (consistent_step s e hc)

theorem on_send_clicked_stage (s : DialogState) (a b : Bool) :
    (on_send_clicked s a b).stage = s.stage ∨
      (on_send_clicked s a b).stage = ReportStage.Uploading := by
  unfold on_send_clicked
  split
  · exact Or.inl rfl
  · split
    · split
      · exact Or.inl rfl
      · exact Or.inr rfl
    · exact Or.inr rfl

theorem on_send_clicked_closed (s : DialogState) (a b : Bool) :
    (on_send_clicked s a b).closed = s.closed := by
  unfold on_send_clicked
  split
  · rfl
  · split
    · split <;> rfl
    · rfl

theorem onFinished_stage (s : DialogState) (body : String) :
    (onFinished s body).stage = s.stage ∨
      (onFinished s body).stage = ReportStage.Reported := by
  unfold onFinished
  split
  · exact Or.inl rfl
  · exact Or.inr rfl

theorem onFinished_closed (s : DialogState) (body : String) :
    (onFinished s body).closed = s.closed := by
  unfold onFinished
  split <;> rfl

theorem stepOpen_allowed (s : DialogState) (ev : Event) (hc : Consistent s)
    (hcl : ¬s.closed = true) :
    allowedTransition s.stage (stepOpen s ev).stage ∧
    (s.stage = ReportStage.Uploading → (stepOpen s ev).closed = true →
      ev = Event.uploadCancelClicked true) := by
  cases ev with
  | sendClicked a b =>
    simp only [stepOpen]
    split
    · rename_i hvis
      have hfd : s.stage = ReportStage.FillingDetails := hc.1.mp hvis
      refine ⟨?_, fun hup _ => ?_⟩
      · rcases on_send_clicked_stage s a b with h | h
        · exact Or.inl h.symm
        · exact Or.inr (Or.inl ⟨hfd, h⟩)
      · rw [hfd] at hup
        exact ReportStage.noConfusion hup
    · exact ⟨Or.inl rfl, fun _ hcl2 => absurd hcl2 hcl⟩
  | cancelClicked =>
    simp only [stepOpen, on_cancel_clicked]
    split
    · rename_i hvis
      have hfd : s.stage = ReportStage.FillingDetails := hc.1.mp hvis
      exact ⟨Or.inl rfl, fun hup _ => ReportStage.noConfusion (hfd ▸ hup)⟩
    · exact ⟨Or.inl rfl, fun _ hcl2 => absurd hcl2 hcl⟩
  | uploadCancelClicked confirmYes =>
    simp only [stepOpen, on_uploadCancel_clicked]
    split
    · split
      · rename_i hyes
        exact ⟨Or.inl rfl, fun _ _ => by rw [hyes]⟩
      · exact ⟨Or.inl rfl, fun _ hcl2 => absurd hcl2 hcl⟩
    · exact ⟨Or.inl rfl, fun _ hcl2 => absurd hcl2 hcl⟩
  | uploadRetryClicked =>
    simp only [stepOpen]
    split
    · exact ⟨Or.inl rfl, fun _ hcl2 => absurd hcl2 hcl⟩
    · exact ⟨Or.inl rfl, fun _ hcl2 => absurd hcl2 hcl⟩
  | netError msg =>
    simp only [stepOpen]
    split
    · exact ⟨Or.inl rfl, fun _ hcl2 => absurd hcl2 hcl⟩
    · exact ⟨Or.inl rfl, fun _ hcl2 => absurd hcl2 hcl⟩
  | netProgress sent total e =>
    simp only [stepOpen]
    split
    · exact ⟨Or.inl rfl, fun _ hcl2 => absurd hcl2 hcl⟩
    · exact ⟨Or.inl rfl, fun _ hcl2 => absurd hcl2 hcl⟩
  | netFinished body =>
    simp only [stepOpen]
    split
    · rename_i hflight
      have hup : s.stage = ReportStage.Uploading := hc.2.2.2 hflight
      refine ⟨?_, fun _ hcl2 => ?_⟩
      · rcases onFinished_stage s body with h | h
        · exact Or.inl h.symm
        · exact Or.inr (Or.inr ⟨hup, h⟩)
      · rw [onFinished_closed s body] at hcl2
        exact absurd hcl2 hcl
    · exact ⟨Or.inl rfl, fun _ hcl2 => absurd hcl2 hcl⟩
  | buttonBoxAccepted now =>
    simp only [stepOpen]
    split
    · rename_i hvis
      have hrep : s.stage = ReportStage.Reported := hc.2.2.1.mp hvis
      have hstage : (on_buttonBox_accepted s now).stage = s.stage := by
        unfold on_buttonBox_accepted
        split <;> rfl
      refine ⟨Or.inl hstage.symm, fun hup _ => ?_⟩
      exact ReportStage.noConfusion
        ((hrep ▸ hup : ReportStage.Reported = ReportStage.Uploading))
    · exact ⟨Or.inl rfl, fun _ hcl2 => absurd hcl2 hcl⟩

theorem step_allowed (s : DialogState) (ev : Event) (hc : Consistent s) :
    allowedTransition s.stage (step s ev).stage ∧
    (s.stage = ReportStage.Uploading → s.closed = false → (step s ev).closed = true →
      ev = Event.uploadCancelClicked true) := by
  unfold step
  split
  · rename_i hcl
    exact ⟨Or.inl rfl, fun _ hop _ => absurd hcl (by rw [hop]; simp)⟩
  · rename_i hcl
    obtain ⟨h1, h2⟩ := stepOpen_allowed s ev hc hcl
    exact ⟨h1, fun hup _ hcl2 => h2 hup hcl2⟩

/-- **C4** (confirmed): along every event sequence from construction, the
stage only moves forward along `FillingDetails → Uploading → Reported`
(staying put covers the re-entrant retry), and a step out of `Uploading`
into the closed state happens only on the upload-cancel click whose
confirmation was answered `Yes`. -/
theorem c4_stage_machine (cfg : PersistantConfig)
    (crashReportJSON : List (String × String)) (replaycrashVal : Nat)
    (capExists openSucceeded imageNull : Bool) (jpgThumb : List Nat)
    (evs : List Event) (ev : Event) :
    allowedTransition
      (run (crashDialogInit cfg crashReportJSON replaycrashVal capExists openSucceeded
        imageNull jpgThumb) evs).stage
      (step (run (crashDialogInit cfg crashReportJSON replaycrashVal capExists openSucceeded
        imageNull jpgThumb) evs) ev).stage ∧
    ((run (crashDialogInit cfg crashReportJSON replaycrashVal capExists openSucceeded
        imageNull jpgThumb) evs).stage = ReportStage.Uploading →
      (run (crashDialogInit cfg crashReportJSON replaycrashVal capExists openSucceeded
        imageNull jpgThumb) evs).closed = false →
      (step (run (crashDialogInit cfg crashReportJSON replaycrashVal capExists openSucceeded
        imageNull jpgThumb) evs) ev).closed = true →
      ev = Event.uploadCancelClicked true) :=
  step_allowed _ ev
    (consistent_run _ evs
      (consistent_crashDialogInit cfg crashReportJSON replaycrashVal capExists openSucceeded
        imageNull jpgThumb))

/-- **C4** witness: from a freshly constructed dialog, one successful
send moves the stage to `Uploading`, and the confirmed upload-cancel
click closes the dialog from there. -/
theorem c4_stage_machine_witness :
    allowedTransition
      (run (crashDialogInit sampleConfig [] 0 false false false []) [Event.sendClicked true false]).stage
      (step (run (crashDialogInit sampleConfig [] 0 false false false [])
        [Event.sendClicked true false]) (Event.uploadCancelClicked true)).stage ∧
    ((run (crashDialogInit sampleConfig [] 0 false false false [])
        [Event.sendClicked true false]).stage = ReportStage.Uploading →
      (run (crashDialogInit sampleConfig [] 0 false false false [])
        [Event.sendClicked true false]).closed = false →
      (step (run (crashDialogInit sampleConfig [] 0 false false false [])
        [Event.sendClicked true false]) (Event.uploadCancelClicked true)).closed = true →
      Event.uploadCancelClicked true = Event.uploadCancelClicked true) :=
  c4_stage_machine sampleConfig [] 0 false false false [] [Event.sendClicked true false]
    (Event.uploadCancelClicked true)

/-! ## C5 — network-error handling -/

/-- **C5** (confirmed): a network error during upload zeroes the progress
bar, shows the error text, and enables the retry control, leaving the
stage untouched (so an `Uploading` stage remains `Uploading`); and a
finished notification arriving while the retry control is enabled does
nothing at all. -/
theorem c5_error_handling (s : DialogState) (err : String) (body : String) :
    (onNetworkError s err).ui.progressBarValue = 0 ∧
    (onNetworkError s err).ui.progressText = ProgressText.networkError err ∧
    (onNetworkError s err).ui.uploadRetryEnabled = true ∧
    (onNetworkError s err).stage = s.stage ∧
    (s.ui.uploadRetryEnabled = true → onFinished s body = s) := by
  refine ⟨rfl, rfl, rfl, rfl, fun h => ?_⟩
  unfold onFinished
  rw [if_pos h]

/-- A dialog state in the `Uploading` stage whose retry control is
already enabled (an error has been reported). -/
def c5ErroredState : DialogState :=
  { sampleState with
    stage := ReportStage.Uploading,
    ui := { sampleUI with uploadRetryEnabled := true, reportGroupVisible := false,
                          uploadingGroupVisible := true } }

/-- **C5** witness: the error/finished handlers evaluated on a concrete
errored state. -/
theorem c5_error_handling_witness :
    (onNetworkError c5ErroredState "connection refused").ui.progressBarValue = 0 ∧
    (onNetworkError c5ErroredState "connection refused").ui.progressText =
      ProgressText.networkError "connection refused" ∧
    (onNetworkError c5ErroredState "connection refused").ui.uploadRetryEnabled = true ∧
    (onNetworkError c5ErroredState "connection refused").stage = c5ErroredState.stage ∧
    (c5ErroredState.ui.uploadRetryEnabled = true →
      onFinished c5ErroredState "abc" = c5ErroredState) :=
  c5_error_handling c5ErroredState "connection refused" "abc"

/-! ## C6 — completion handling -/

/-- **C6** (confirmed): on error-free completion the response body
becomes the report ID and the stage becomes `Reported`; an empty body
yields the bare thank-you text, a non-empty body appends the paragraph
with the URL built from the ID. -/
theorem c6_finished_response (s : DialogState) (body : String)
    (h : s.ui.uploadRetryEnabled = false) :
    (onFinished s body).reportID = body ∧
    (onFinished s body).stage = ReportStage.Reported ∧
    (body = "" → (onFinished s body).ui.finishedText = thankYouText) ∧
    (body ≠ "" → (onFinished s body).ui.finishedText =
      thankYouText ++ urlParagraph (bugURL body)) := by
  unfold onFinished
  rw [if_neg (by simp [h])]
  refine ⟨rfl, rfl, fun hb => ?_, fun hb => ?_⟩
  · simp [setStage, hb]
  · simp [setStage, hb]

/-- **C6** witness: a response body of `"abc123"` on a state whose retry
control is disabled. -/
theorem c6_finished_response_witness :
    sampleState.ui.uploadRetryEnabled = false ∧
    ((onFinished sampleState "abc123").reportID = "abc123" ∧
     (onFinished sampleState "abc123").stage = ReportStage.Reported ∧
     ("abc123" = "" → (onFinished sampleState "abc123").ui.finishedText = thankYouText) ∧
     ("abc123" ≠ "" → (onFinished sampleState "abc123").ui.finishedText =
       thankYouText ++ urlParagraph (bugURL "abc123"))) :=
  ⟨rfl, c6_finished_response sampleState "abc123" rfl⟩

/-! ## C7 — multipart body layout -/

/-- **C7** (confirmed): the multipart body is, in order, one form part
per metadata key, an `email` part iff the email is non-empty, a
`description` part iff the description is non-empty, then — only when a
capture filename is set and the capture-upload option is checked — the
capture part followed by the JPEG thumbnail part when a compressed
thumbnail exists, and finally the `report.zip` part. -/
theorem c7_multipart_layout (metadata : List (String × String)) (email description : String)
    (captureFilename : String) (captureUploadChecked : Bool)
    (thumbnail : Option (List Nat)) (reportPath : String) :
    buildMultipart metadata email description captureFilename captureUploadChecked
        thumbnail reportPath =
      (metadata.map fun kv => metadataPart kv.1 kv.2)
      ++ (if email = "" then [] else [emailPart email])
      ++ (if description = "" then [] else [descriptionPart description])
      ++ (if captureFilename ≠ "" ∧ captureUploadChecked = true then
            [capturePart captureFilename] ++
              (match thumbnail with
               | some data => [thumbPart data]
               | none => [])
          else [])
      ++ [reportPart reportPath] := by
  cases thumbnail <;>
    by_cases h1 : email = "" <;>
      by_cases h2 : description = "" <;>
        by_cases h3 : captureFilename ≠ "" ∧ captureUploadChecked = true <;>
          simp [buildMultipart, h1, h2, h3, List.append_assoc]

/-! ## C8 — declining the capture-upload confirmation -/

/-- **C8** (confirmed): when the capture-upload checkbox is checked and
the confirmation is not answered `Yes`, the send handler unchecks the
checkbox and returns: the stage is still `FillingDetails`, the
configuration is untouched (nothing persisted), and no upload starts. -/
theorem c8_capture_decline (s : DialogState) (nagYes : Bool)
    (hstage : s.stage = ReportStage.FillingDetails)
    (hchk : s.ui.captureUpload = true) :
    (on_send_clicked s false nagYes).stage = ReportStage.FillingDetails ∧
    (on_send_clicked s false nagYes).ui.captureUpload = false ∧
    (on_send_clicked s false nagYes).config = s.config ∧
    (on_send_clicked s false nagYes).saveCount = s.saveCount ∧
    (on_send_clicked s false nagYes).requestInFlight = s.requestInFlight := by
  unfold on_send_clicked
  rw [if_pos ⟨hchk, rfl⟩]
  exact ⟨hstage, rfl, rfl, rfl, rfl⟩

/-- A freshly filled dialog whose capture-upload checkbox is checked. -/
def c8CheckedState : DialogState :=
  { sampleState with ui := { sampleUI with captureUpload := true } }

/-- **C8** witness: declining the capture confirmation on a concrete
checked state. -/
theorem c8_capture_decline_witness :
    c8CheckedState.stage = ReportStage.FillingDetails ∧
    c8CheckedState.ui.captureUpload = true ∧
    ((on_send_clicked c8CheckedState false false).stage = ReportStage.FillingDetails ∧
     (on_send_clicked c8CheckedState false false).ui.captureUpload = false ∧
     (on_send_clicked c8CheckedState false false).config = c8CheckedState.config ∧
     (on_send_clicked c8CheckedState false false).saveCount = c8CheckedState.saveCount ∧
     (on_send_clicked c8CheckedState false false).requestInFlight =
       c8CheckedState.requestInFlight) :=
  ⟨rfl, rfl, c8_capture_decline c8CheckedState false rfl rfl⟩

/-! ## C9 — construction without an associated capture -/

/-- **C9** (confirmed): when the descriptor's `replaycrash` value is not
truthy or the previously-recorded capture path does not exist, the
constructor hides every capture-related widget and leaves
`m_CaptureFilename` empty. -/
theorem c9_no_capture_hidden (cfg : PersistantConfig)
    (crashReportJSON : List (String × String)) (replaycrashVal : Nat)
    (capExists openSucceeded imageNull : Bool) (jpgThumb : List Nat)
    (h : replaycrashVal = 0 ∨ capExists = false) :
    (crashDialogInit cfg crashReportJSON replaycrashVal capExists openSucceeded
      imageNull jpgThumb).captureFilename = "" ∧
    (crashDialogInit cfg crashReportJSON replaycrashVal capExists openSucceeded
      imageNull jpgThumb).ui.captureLabelVisible = false ∧
    (crashDialogInit cfg crashReportJSON replaycrashVal capExists openSucceeded
      imageNull jpgThumb).ui.captureUploadVisible = false ∧
    (crashDialogInit cfg crashReportJSON replaycrashVal capExists openSucceeded
      imageNull jpgThumb).ui.captureFilenameVisible = false ∧
    (crashDialogInit cfg crashReportJSON replaycrashVal capExists openSucceeded
      imageNull jpgThumb).ui.capturePreviewFrameVisible = false := by
  have hcond : ¬(replaycrashVal ≠ 0 ∧ capExists = true) := by
    rcases h with h | h
    · exact fun hc => hc.1 h
    · intro hc
      rw [h] at hc
      exact Bool.noConfusion hc.2
  unfold crashDialogInit
  dsimp only
  rw [if_neg hcond]
  exact ⟨rfl, rfl, rfl, rfl, rfl⟩

/-- **C9** witness: a descriptor with `replaycrash = 0`. -/
theorem c9_no_capture_hidden_witness :
    ((0 : Nat) = 0 ∨ (true : Bool) = false) ∧
    ((crashDialogInit sampleConfig [] 0 true false false []).captureFilename = "" ∧
     (crashDialogInit sampleConfig [] 0 true false false []).ui.captureLabelVisible = false ∧
     (crashDialogInit sampleConfig [] 0 true false false []).ui.captureUploadVisible = false ∧
     (crashDialogInit sampleConfig [] 0 true false false []).ui.captureFilenameVisible = false ∧
     (crashDialogInit sampleConfig [] 0 true false false []).ui.capturePreviewFrameVisible
       = false) :=
  ⟨Or.inl rfl, c9_no_capture_hidden sampleConfig [] 0 true false false [] (Or.inl rfl)⟩

/-! ## C10 — email persistence on send -/

/-- **C10** (confirmed): when both confirmation gates pass, the
remember-email flag is overwritten with the checkbox state, while the
stored email address is overwritten only when the checkbox is checked
and the email field is non-empty; otherwise it keeps its prior value. -/
theorem c10_email_persistence (s : DialogState) (capYes nagYes : Bool)
    (hgate1 : ¬(s.ui.captureUpload = true ∧ capYes = false))
    (hgate2 : ¬((s.config.CrashReport_EmailNagged = false ∧ s.ui.email = "") ∧
      nagYes = true)) :
    (on_send_clicked s capYes nagYes).config.CrashReport_ShouldRememberEmail =
      s.ui.rememberEmail ∧
    (on_send_clicked s capYes nagYes).config.CrashReport_EmailAddress =
      (if s.ui.rememberEmail = true ∧ s.ui.email ≠ "" then s.ui.email
       else s.config.CrashReport_EmailAddress) := by
  unfold on_send_clicked
  rw [if_neg hgate1]
  by_cases hnag : s.config.CrashReport_EmailNagged = false ∧ s.ui.email = ""
  · rw [if_pos hnag, if_neg (fun hy => hgate2 ⟨hnag, hy⟩)]
    exact ⟨rfl, rfl⟩
  · rw [if_neg hnag]
    exact ⟨rfl, rfl⟩

/-- **C10** witness: a send that passes both gates on a state that
remembers a non-empty email. -/
def c10RememberState : DialogState :=
  { sampleState with
    ui := { sampleUI with rememberEmail := true, email := "user at example" },
    config := { sampleConfig with CrashReport_EmailAddress := "old address" } }

/-- **C10** witness: the remember-email flag is stored and the non-empty
address overwrites the remembered one. -/
theorem c10_email_persistence_witness :
    (¬(c10RememberState.ui.captureUpload = true ∧ (true : Bool) = false)) ∧
    (¬((c10RememberState.config.CrashReport_EmailNagged = false ∧
        c10RememberState.ui.email = "") ∧ (false : Bool) = true)) ∧
    ((on_send_clicked c10RememberState true false).config.CrashReport_ShouldRememberEmail =
      c10RememberState.ui.rememberEmail ∧
     (on_send_clicked c10RememberState true false).config.CrashReport_EmailAddress =
       (if c10RememberState.ui.rememberEmail = true ∧ c10RememberState.ui.email ≠ "" then
          c10RememberState.ui.email
        else c10RememberState.config.CrashReport_EmailAddress)) :=
  ⟨by decide, by decide,
    c10_email_persistence c10RememberState true false (by decide) (by decide)⟩

end CrashDialog
